import Mathlib

/-!
Verification of the `arbitime` timing library (src/src/lib.rs).

The library consists of three Rust macros:

* `time!` — evaluate a body, returning `(duration, result)` where the
  duration is measured with `std::time::Instant` (a monotonic clock whose
  `elapsed` saturates at zero).
* `format_time!` — four arms:
  arm 1: one or more `msg => { body }` pairs,
  arm 2: one or more `msg => body` pairs (unbraced),
  arm 3: a single `msg => body` pair,
  arm 4: a bare body with no message.
  Arms 1 and 2 expand to a brace-enclosed sequence of blocks separated by
  semicolons, so every pair is evaluated in input order but only the last
  block's `(message, result)` value is the value of the whole expression.
* `log_time!` — expands `format_time!` on the same tokens, writes the
  resulting message to stderr with `eprintln!`, and returns the result.

Shallow embedding: effects are modelled by a `World` state threaded through
computations.  `World.clock : Int` is the monotonic clock read by
`Instant::now`; a caller-supplied computation may advance it (and do
anything else to the world).  `World.stderrLines` is the process stderr,
one list element per line written by `eprintln!` (the terminating newline
is implicit in the list structure).  `World.user : σ` is arbitrary caller
state, used to observe side effects of the wrapped computations.  A
computation either returns a value and a new world, or fails (a Rust
panic), modelled by `Except`: on failure the whole call unwinds and no
further state of this call is observable.
-/

/-- The world state threaded through effectful computations: the monotonic
clock, the stderr stream (one element per written line) and arbitrary
caller-visible state. -/
structure World (σ : Type) where
  clock : Int
  stderrLines : List String
  user : σ
  deriving Repr, DecidableEq

/-- A caller-supplied computation (the body wrapped by the macros): it may
read and change the world and either produce a value or fail (panic). -/
def RComp (ε σ α : Type) : Type := World σ → Except ε (α × World σ)

/-- Saturating difference of two clock readings, as performed by
`Instant::elapsed` (`duration_since` returns a zero `Duration` when the
other instant is later, and a Rust `Duration` is non-negative). -/
def satSub (endT startT : Int) : Int := max (endT - startT) 0

/-- Modelled from the spec: `<duration>` is the platform's default
human-readable rendering of the elapsed time (Rust's `Debug` for
`std::time::Duration`, which is standard-library code outside this
repository), unit auto-scaled by magnitude; exact thresholds are
implementation-defined.  We render an integer nanosecond count with
Rust-like unit scaling. -/
def render (d : Int) : String :=
  let n : Nat := d.toNat
  if n ≥ 1000000000 then toString (n / 1000000000) ++ "s"
  else if n ≥ 1000000 then toString (n / 1000000) ++ "ms"
  else if n ≥ 1000 then toString (n / 1000) ++ "µs"
  else toString n ++ "ns"

/-- The `time!` macro: read a start instant, evaluate the body once,
read the elapsed time, and return `(duration, result)`.  A failing body
propagates its failure and produces nothing. -/
def time_bang {ε σ α : Type} (body : RComp ε σ α) : RComp ε σ (Int × α) :=
  fun w =>
    let start := w.clock
    match body w with
    | Except.error e => Except.error e
    | Except.ok (result, w1) => Except.ok ((satSub w1.clock start, result), w1)

/-- The string built by `format!("{} - Execution time: {:?}", msg, duration)`. -/
def labeledMsg (msg : String) (duration : Int) : String :=
  msg ++ " - Execution time: " ++ render duration

/-- The string built by `format!("Execution time: {:?}", duration)`. -/
def plainMsg (duration : Int) : String :=
  "Execution time: " ++ render duration

/-- Arms 1 and 2 of `format_time!` (one or more `msg => body` pairs,
braced or unbraced): the expansion is a sequence of blocks separated by
semicolons, one block per pair, each block evaluating
`let (duration, result) = time!(body); (format!(...), result)`.
All blocks run in input order; the values of all but the last block are
discarded, and the value of the last block is the value of the whole
expression.  A failing body unwinds the whole expression. -/
def format_time_multi {ε σ α : Type} :
    (String × RComp ε σ α) → List (String × RComp ε σ α) → RComp ε σ (String × α)
  | p, [] => fun w =>
      match time_bang p.2 w with
      | Except.error e => Except.error e
      | Except.ok ((duration, result), w1) =>
          Except.ok ((labeledMsg p.1 duration, result), w1)
  | p, q :: rest => fun w =>
      match time_bang p.2 w with
      | Except.error e => Except.error e
      | Except.ok ((_, _), w1) => format_time_multi q rest w1

/-- Arm 3 of `format_time!` (a single `msg => body` pair):
`let (duration, result) = time!(body); (format!("{} - Execution time: {:?}", msg, duration), result)`. -/
def format_time_single {ε σ α : Type} (msg : String) (body : RComp ε σ α) :
    RComp ε σ (String × α) :=
  fun w =>
    match time_bang body w with
    | Except.error e => Except.error e
    | Except.ok ((duration, result), w1) =>
        Except.ok ((labeledMsg msg duration, result), w1)

/-- Arm 4 of `format_time!` (a bare body, no message):
`let (duration, result) = time!(body); (format!("Execution time: {:?}", duration), result)`. -/
def format_time_plain {ε σ α : Type} (body : RComp ε σ α) :
    RComp ε σ (String × α) :=
  fun w =>
    match time_bang body w with
    | Except.error e => Except.error e
    | Except.ok ((duration, result), w1) =>
        Except.ok ((plainMsg duration, result), w1)

/-- `eprintln!("{}", msg)`: append one newline-terminated line to stderr. -/
def eprintlnLine {σ : Type} (w : World σ) (msg : String) : World σ :=
  { w with stderrLines := w.stderrLines ++ [msg] }

/-- `log_time!` on tokens that `format_time!` matches with arms 1/2
(one or more pairs): `let (msg, result) = format_time!(tokens);
eprintln!("{}", msg); result`. -/
def log_time_multi {ε σ α : Type}
    (p : String × RComp ε σ α) (rest : List (String × RComp ε σ α)) :
    RComp ε σ α :=
  fun w =>
    match format_time_multi p rest w with
    | Except.error e => Except.error e
    | Except.ok ((msg, result), w1) => Except.ok (result, eprintlnLine w1 msg)

/-- `log_time!` on a single `msg => body` pair. -/
def log_time_single {ε σ α : Type} (msg : String) (body : RComp ε σ α) :
    RComp ε σ α :=
  fun w =>
    match format_time_single msg body w with
    | Except.error e => Except.error e
    | Except.ok ((m, result), w1) => Except.ok (result, eprintlnLine w1 m)

/-- `log_time!` on a bare body. -/
def log_time_plain {ε σ α : Type} (body : RComp ε σ α) : RComp ε σ α :=
  fun w =>
    match format_time_plain body w with
    | Except.error e => Except.error e
    | Except.ok ((m, result), w1) => Except.ok (result, eprintlnLine w1 m)

/-- Modelled from the spec: form (c) of `format` — "invoke Timer
independently and sequentially for each pair, in input order; each
produces its own message using rule (b); return the ordered sequence of
resulting `FormattedResult` values."  This is what the spec claims
`format_time!` does on multiple pairs; it is compared with the actual
expansion `format_time_multi`. -/
def format_time_specSeq {ε σ α : Type} :
    List (String × RComp ε σ α) → RComp ε σ (List (String × α))
  | [] => fun w => Except.ok ([], w)
  | p :: rest => fun w =>
      match time_bang p.2 w with
      | Except.error e => Except.error e
      | Except.ok ((duration, result), w1) =>
          match format_time_specSeq rest w1 with
          | Except.error e => Except.error e
          | Except.ok (listRes, w2) =>
              Except.ok ((labeledMsg p.1 duration, result) :: listRes, w2)

/-- A computation that records the event `e` on the user trace and
returns `v`; used to observe evaluation order and multiplicity. -/
def tracer {ε α : Type} (e : Nat) (v : α) : RComp ε (List Nat) α :=
  fun w => Except.ok (v, { w with user := w.user ++ [e] })

/-- A computation that immediately returns `v` without touching the world. -/
def pureComp {ε σ α : Type} (v : α) : RComp ε σ α :=
  fun w => Except.ok (v, w)

/-- A trivial initial world over a given user state. -/
def initWorld {σ : Type} (s : σ) : World σ := ⟨0, [], s⟩

/-- The last element of the nonempty list `first :: rest`. -/
def lastPair {β : Type} : β → List β → β
  | b, [] => b
  | _, q :: rest => lastPair q rest

/-- A labeled tracer pair: label `i.1`, a computation recording event
`i.2.1` on the user trace and returning `i.2.2`. -/
def tracerOf (ε : Type) {α : Type} (i : String × Nat × α) :
    String × RComp ε (List Nat) α :=
  (i.1, tracer i.2.1 i.2.2)

/-- The message component of a `format_time!` outcome, when one exists. -/
def messageOf {ε σ α : Type} : Except ε ((String × α) × World σ) → Option String
  | Except.ok ((m, _), _) => some m
  | Except.error _ => none

/-- The last stderr line after a `log_time!` outcome, when one exists. -/
def lastLineOf {ε σ α : Type} : Except ε (α × World σ) → Option String
  | Except.ok (_, w) => w.stderrLines.getLast?
  | Except.error _ => none

/-- The result component of a `format_time!` outcome. -/
def resultPart {ε σ α : Type} (x : Except ε ((String × α) × World σ)) : Except ε α :=
  x.map (fun y => y.1.2)

/-- The return value of a `log_time!` outcome. -/
def returnPart {ε σ α : Type} (x : Except ε (α × World σ)) : Except ε α :=
  x.map (fun y => y.1)

/-- C3: `time!` evaluates the body exactly once and returns its value as the
result component with no coercion: if the body, run once from world `w`,
produces `v` and world `w1`, then `time!` returns exactly `(duration, v)`
and leaves the world at `w1` (the body's effects applied exactly once). -/
theorem C3_measure_returns_result_exactly {ε σ α : Type}
    (c : RComp ε σ α) (w w1 : World σ) (v : α)
    (h : c w = Except.ok (v, w1)) :
    time_bang c w = Except.ok ((satSub w1.clock w.clock, v), w1) := by
  simp [time_bang, h]

/-- C3 witness: a concrete computation returning `5`. -/
theorem C3_witness :
    time_bang (pureComp 5 : RComp Unit Unit Nat) (initWorld ()) =
      Except.ok ((satSub (initWorld ()).clock (initWorld ()).clock, 5), initWorld ()) :=
  C3_measure_returns_result_exactly (pureComp 5) (initWorld ()) (initWorld ()) 5 rfl

/-- C8: the duration component returned by `time!` is non-negative
(`elapsed` is a saturating difference of monotonic-clock readings). -/
theorem C8_duration_nonneg {ε σ α : Type}
    (c : RComp ε σ α) (w w1 : World σ) (d : Int) (r : α)
    (h : time_bang c w = Except.ok ((d, r), w1)) : 0 ≤ d := by
  unfold time_bang at h
  cases hc : c w with
  | error e => rw [hc] at h; exact absurd h (by simp)
  | ok p =>
      rw [hc] at h
      simp only [Except.ok.injEq, Prod.mk.injEq] at h
      have hd : d = satSub p.2.clock w.clock := h.1.1.symm
      rw [hd]
      exact le_max_right _ _

/-- C8 witness: the duration measured for a concrete computation is `≥ 0`. -/
theorem C8_witness :
    (0 : Int) ≤ satSub (initWorld ()).clock ((initWorld () : World Unit)).clock :=
  C8_duration_nonneg (pureComp 5 : RComp Unit Unit Nat) (initWorld ()) (initWorld ())
    (satSub (initWorld ()).clock ((initWorld () : World Unit)).clock) 5 rfl

/-- C5: the message is exactly `"Execution time: " ++ render d` with no
label, and exactly `L ++ " - Execution time: " ++ render d` with label
`L`, where `d` is the measured duration. -/
theorem C5_message_format {ε σ α : Type}
    (c : RComp ε σ α) (w w1 : World σ) (v : α)
    (h : c w = Except.ok (v, w1)) :
    format_time_plain c w =
      Except.ok (("Execution time: " ++ render (satSub w1.clock w.clock), v), w1) ∧
    ∀ msg : String, format_time_single msg c w =
      Except.ok ((msg ++ " - Execution time: " ++ render (satSub w1.clock w.clock), v), w1) := by
  constructor
  · simp [format_time_plain, time_bang, h, plainMsg]
  · intro msg
    simp [format_time_single, time_bang, h, labeledMsg]

/-- C5 witness: concrete messages for a computation returning `5`. -/
theorem C5_witness :
    format_time_plain (pureComp 5 : RComp Unit Unit Nat) (initWorld ()) =
      Except.ok (("Execution time: " ++
        render (satSub (initWorld ()).clock (initWorld ()).clock), 5), initWorld ()) ∧
    format_time_single "Database query" (pureComp 5 : RComp Unit Unit Nat) (initWorld ()) =
      Except.ok (("Database query" ++ " - Execution time: " ++
        render (satSub (initWorld ()).clock (initWorld ()).clock), 5), initWorld ()) :=
  ⟨(C5_message_format (pureComp 5) (initWorld ()) (initWorld ()) 5 rfl).1,
   (C5_message_format (pureComp 5) (initWorld ()) (initWorld ()) 5 rfl).2 "Database query"⟩

/-- C9: the braced single-pair arm of `format_time!` (`msg => { body }`,
matched by the multi-pair arm at one repetition) and the unbraced
single-pair arm (`msg => body`) expand to behaviorally identical code. -/
theorem C9_braced_eq_unbraced {ε σ α : Type} (msg : String) (c : RComp ε σ α) :
    format_time_multi (msg, c) [] = format_time_single msg c := by
  funext w
  simp [format_time_multi, format_time_single]

/-- C10: the produced message (and the line `log_time!` writes) depends
only on the label and the measured duration, never on the computation's
result: two computations with equal measured durations yield identical
messages even when their results (and everything else about them) differ. -/
theorem C10_message_independent_of_result
    {ε₁ σ₁ α₁ ε₂ σ₂ α₂ : Type}
    (c₁ : RComp ε₁ σ₁ α₁) (c₂ : RComp ε₂ σ₂ α₂)
    (w₁ w₁' : World σ₁) (w₂ w₂' : World σ₂) (v₁ : α₁) (v₂ : α₂)
    (h₁ : c₁ w₁ = Except.ok (v₁, w₁'))
    (h₂ : c₂ w₂ = Except.ok (v₂, w₂'))
    (hd : satSub w₁'.clock w₁.clock = satSub w₂'.clock w₂.clock) :
    ∀ msg : String,
      messageOf (format_time_single msg c₁ w₁) =
        messageOf (format_time_single msg c₂ w₂) ∧
      messageOf (format_time_plain c₁ w₁) = messageOf (format_time_plain c₂ w₂) ∧
      lastLineOf (log_time_single msg c₁ w₁) =
        lastLineOf (log_time_single msg c₂ w₂) ∧
      lastLineOf (log_time_plain c₁ w₁) = lastLineOf (log_time_plain c₂ w₂) := by
  intro msg
  refine ⟨?_, ?_, ?_, ?_⟩
  · simp [format_time_single, time_bang, h₁, h₂, messageOf, labeledMsg, hd]
  · simp [format_time_plain, time_bang, h₁, h₂, messageOf, plainMsg, hd]
  · simp [log_time_single, format_time_single, time_bang, h₁, h₂, lastLineOf,
      eprintlnLine, labeledMsg, hd]
  · simp [log_time_plain, format_time_plain, time_bang, h₁, h₂, lastLineOf,
      eprintlnLine, plainMsg, hd]

/-- C10 witness: computations returning `5` and `6` with equal (zero)
measured durations produce identical messages and logged lines. -/
theorem C10_witness :
    messageOf (format_time_single "L" (pureComp 5 : RComp Unit Unit Nat) (initWorld ())) =
      messageOf (format_time_single "L" (pureComp 6 : RComp Unit Unit Nat) (initWorld ())) ∧
    messageOf (format_time_plain (pureComp 5 : RComp Unit Unit Nat) (initWorld ())) =
      messageOf (format_time_plain (pureComp 6 : RComp Unit Unit Nat) (initWorld ())) ∧
    lastLineOf (log_time_single "L" (pureComp 5 : RComp Unit Unit Nat) (initWorld ())) =
      lastLineOf (log_time_single "L" (pureComp 6 : RComp Unit Unit Nat) (initWorld ())) ∧
    lastLineOf (log_time_plain (pureComp 5 : RComp Unit Unit Nat) (initWorld ())) =
      lastLineOf (log_time_plain (pureComp 6 : RComp Unit Unit Nat) (initWorld ())) :=
  C10_message_independent_of_result (pureComp 5) (pureComp 6)
    (initWorld ()) (initWorld ()) (initWorld ()) (initWorld ()) 5 6 rfl rfl rfl "L"

/-- C6: a failing (panicking) computation propagates the same failure
through `time!`, every arm of `format_time!` (including when it is the
first pair of a multi-pair call, killing the whole call), and every arm of
`log_time!`; no duration, message, or diagnostic line is produced. -/
theorem C6_failure_propagates {ε σ α : Type}
    (c : RComp ε σ α) (w : World σ) (e : ε)
    (h : c w = Except.error e) :
    time_bang c w = Except.error e ∧
    format_time_plain c w = Except.error e ∧
    (∀ msg : String, format_time_single msg c w = Except.error e) ∧
    (∀ (msg : String) (rest : List (String × RComp ε σ α)),
        format_time_multi (msg, c) rest w = Except.error e) ∧
    log_time_plain c w = Except.error e ∧
    (∀ msg : String, log_time_single msg c w = Except.error e) ∧
    (∀ (msg : String) (rest : List (String × RComp ε σ α)),
        log_time_multi (msg, c) rest w = Except.error e) := by
  have ht : time_bang c w = Except.error e := by simp [time_bang, h]
  have hmulti : ∀ (msg : String) (rest : List (String × RComp ε σ α)),
      format_time_multi (msg, c) rest w = Except.error e := by
    intro msg rest
    cases rest with
    | nil => simp [format_time_multi, ht]
    | cons q qs => simp [format_time_multi, ht]
  refine ⟨ht, ?_, ?_, hmulti, ?_, ?_, ?_⟩
  · simp [format_time_plain, ht]
  · intro msg; simp [format_time_single, ht]
  · simp [log_time_plain, format_time_plain, ht]
  · intro msg; simp [log_time_single, format_time_single, ht]
  · intro msg rest; simp [log_time_multi, hmulti msg rest]

/-- C6 witness: a computation failing with error code `7`. -/
theorem C6_witness :
    time_bang (fun _ => Except.error 7 : RComp Nat Unit Nat) (initWorld ()) =
      Except.error 7 ∧
    log_time_multi ("L", (fun _ => Except.error 7 : RComp Nat Unit Nat)) []
      (initWorld ()) = Except.error 7 :=
  ⟨(C6_failure_propagates (fun _ => Except.error 7) (initWorld ()) 7 rfl).1,
   (C6_failure_propagates (fun _ => Except.error 7) (initWorld ()) 7 rfl).2.2.2.2.2.2 "L" []⟩

/-- C4: on each of the three input forms, `log_time!` returns exactly the
result portion of what `format_time!` returns on the same tokens
(the message being discarded), and fails exactly when it fails. -/
theorem C4_log_returns_format_results {ε σ α : Type} (w : World σ) :
    (∀ c : RComp ε σ α,
        returnPart (log_time_plain c w) = resultPart (format_time_plain c w)) ∧
    (∀ (msg : String) (c : RComp ε σ α),
        returnPart (log_time_single msg c w) =
          resultPart (format_time_single msg c w)) ∧
    (∀ (p : String × RComp ε σ α) (rest : List (String × RComp ε σ α)),
        returnPart (log_time_multi p rest w) =
          resultPart (format_time_multi p rest w)) := by
  refine ⟨?_, ?_, ?_⟩
  · intro c
    cases hf : format_time_plain c w with
    | error e => simp [log_time_plain, hf, returnPart, resultPart, Except.map]
    | ok x =>
        obtain ⟨⟨m, r⟩, w1⟩ := x
        simp [log_time_plain, hf, returnPart, resultPart, Except.map]
  · intro msg c
    cases hf : format_time_single msg c w with
    | error e => simp [log_time_single, hf, returnPart, resultPart, Except.map]
    | ok x =>
        obtain ⟨⟨m, r⟩, w1⟩ := x
        simp [log_time_single, hf, returnPart, resultPart, Except.map]
  · intro p rest
    cases hf : format_time_multi p rest w with
    | error e => simp [log_time_multi, hf, returnPart, resultPart, Except.map]
    | ok x =>
        obtain ⟨⟨m, r⟩, w1⟩ := x
        simp [log_time_multi, hf, returnPart, resultPart, Except.map]

/-- Running the multi-pair arm on tracer computations: every computation
runs exactly once, in input order, and the value is the last pair's
message and result. -/
theorem format_time_multi_tracer_eq (ε α : Type)
    (first : String × Nat × α) (rest : List (String × Nat × α))
    (w : World (List Nat)) :
    format_time_multi (tracerOf ε first) (rest.map (tracerOf ε)) w =
      Except.ok ((labeledMsg (lastPair first rest).1 0, (lastPair first rest).2.2),
        { w with user := w.user ++ first.2.1 :: rest.map (fun i => i.2.1) }) := by
  induction rest generalizing first w with
  | nil =>
      simp [format_time_multi, tracerOf, tracer, time_bang, satSub, lastPair]
  | cons q qs ih =>
      have hstep : format_time_multi (tracerOf ε first)
          ((q :: qs).map (tracerOf ε)) w =
          format_time_multi (tracerOf ε q) (qs.map (tracerOf ε))
            { w with user := w.user ++ [first.2.1] } := by
        simp [format_time_multi, tracerOf, tracer, time_bang]
      rw [hstep, ih]
      simp [lastPair]

/-- C7: for `N` labeled computations submitted together to the multi-pair
arm of `format_time!` or `log_time!`, each computation is evaluated
exactly once, strictly sequentially, in input order: instrumenting each
computation to append its event to the user trace, the final trace is the
input-order concatenation of the events, each occurring through exactly
one evaluation. -/
theorem C7_sequential_once_in_order (ε α : Type)
    (first : String × Nat × α) (rest : List (String × Nat × α))
    (w : World (List Nat)) :
    (format_time_multi (tracerOf ε first) (rest.map (tracerOf ε)) w).map
        (fun x => x.2.user) =
      Except.ok (w.user ++ first.2.1 :: rest.map (fun i => i.2.1)) ∧
    (log_time_multi (tracerOf ε first) (rest.map (tracerOf ε)) w).map
        (fun x => x.2.user) =
      Except.ok (w.user ++ first.2.1 :: rest.map (fun i => i.2.1)) := by
  constructor
  · rw [format_time_multi_tracer_eq]
    rfl
  · unfold log_time_multi
    rw [format_time_multi_tracer_eq]
    rfl

/-- The multi-pair arm fails as soon as its first computation fails. -/
theorem format_time_multi_error {ε σ α : Type}
    (p : String × RComp ε σ α) (rest : List (String × RComp ε σ α))
    (w : World σ) (e : ε) (ht : time_bang p.2 w = Except.error e) :
    format_time_multi p rest w = Except.error e := by
  cases rest with
  | nil => simp [format_time_multi, ht]
  | cons q qs => simp [format_time_multi, ht]

/-- The multi-pair arm on a single pair builds that pair's message. -/
theorem format_time_multi_nil_ok {ε σ α : Type}
    (p : String × RComp ε σ α) (w : World σ) (d : Int) (res : α) (wa : World σ)
    (ht : time_bang p.2 w = Except.ok ((d, res), wa)) :
    format_time_multi p [] w = Except.ok ((labeledMsg p.1 d, res), wa) := by
  simp [format_time_multi, ht]

/-- The multi-pair arm discards the first pair's value and continues with
the remaining pairs in the world the first computation produced. -/
theorem format_time_multi_cons_ok {ε σ α : Type}
    (p q : String × RComp ε σ α) (qs : List (String × RComp ε σ α))
    (w : World σ) (d : Int) (res : α) (wa : World σ)
    (ht : time_bang p.2 w = Except.ok ((d, res), wa)) :
    format_time_multi p (q :: qs) w = format_time_multi q qs wa := by
  simp [format_time_multi, ht]

/-- The spec-modelled sequence form fails when its first computation fails. -/
theorem format_time_specSeq_cons_error {ε σ α : Type}
    (p : String × RComp ε σ α) (rest : List (String × RComp ε σ α))
    (w : World σ) (e : ε) (ht : time_bang p.2 w = Except.error e) :
    format_time_specSeq (p :: rest) w = Except.error e := by
  unfold format_time_specSeq
  rw [ht]

/-- The spec-modelled sequence form fails when a later computation fails. -/
theorem format_time_specSeq_cons_okError {ε σ α : Type}
    (p : String × RComp ε σ α) (rest : List (String × RComp ε σ α))
    (w : World σ) (d : Int) (res : α) (wa : World σ) (e : ε)
    (ht : time_bang p.2 w = Except.ok ((d, res), wa))
    (hs : format_time_specSeq rest wa = Except.error e) :
    format_time_specSeq (p :: rest) w = Except.error e := by
  unfold format_time_specSeq
  rw [ht]
  show (match format_time_specSeq rest wa with
    | Except.error e => Except.error e
    | Except.ok (lst, w2) =>
        Except.ok ((labeledMsg p.1 d, res) :: lst, w2)) = Except.error e
  rw [hs]

/-- The spec-modelled sequence form conses the first pair's
`FormattedResult` onto the sequence produced by the remaining pairs. -/
theorem format_time_specSeq_cons_okOk {ε σ α : Type}
    (p : String × RComp ε σ α) (rest : List (String × RComp ε σ α))
    (w : World σ) (d : Int) (res : α) (wa : World σ)
    (lst2 : List (String × α)) (w2 : World σ)
    (ht : time_bang p.2 w = Except.ok ((d, res), wa))
    (hs : format_time_specSeq rest wa = Except.ok (lst2, w2)) :
    format_time_specSeq (p :: rest) w =
      Except.ok ((labeledMsg p.1 d, res) :: lst2, w2) := by
  unfold format_time_specSeq
  rw [ht]
  show (match format_time_specSeq rest wa with
    | Except.error e => Except.error e
    | Except.ok (lst, w3) =>
        Except.ok ((labeledMsg p.1 d, res) :: lst, w3)) =
    Except.ok ((labeledMsg p.1 d, res) :: lst2, w2)
  rw [hs]

/-- The spec-modelled sequence form returns one `FormattedResult` per
input pair, so on a nonempty input a successful run is nonempty. -/
theorem format_time_specSeq_ne_nil {ε σ α : Type}
    (p : String × RComp ε σ α) (rest : List (String × RComp ε σ α))
    (w : World σ) (lst : List (String × α)) (w1 : World σ)
    (h : format_time_specSeq (p :: rest) w = Except.ok (lst, w1)) :
    lst ≠ [] := by
  cases ht : time_bang p.2 w with
  | error e =>
      rw [format_time_specSeq_cons_error p rest w e ht] at h
      exact absurd h (by simp)
  | ok x =>
      obtain ⟨⟨d, res⟩, wa⟩ := x
      cases hs : format_time_specSeq rest wa with
      | error e =>
          rw [format_time_specSeq_cons_okError p rest w d res wa e ht hs] at h
          exact absurd h (by simp)
      | ok y =>
          obtain ⟨lst2, w2⟩ := y
          rw [format_time_specSeq_cons_okOk p rest w d res wa lst2 w2 ht hs] at h
          simp only [Except.ok.injEq, Prod.mk.injEq] at h
          obtain ⟨hlist, _⟩ := h
          rw [← hlist]
          simp

/-- C1 (amended): the multi-pair arm of `format_time!` does not return
the ordered sequence of N `(message, result)` pairs the spec describes
(`format_time_specSeq`); it evaluates every pair in input order with the
same effects and the same failure behavior, but its value is only the
LAST pair's `(message, result)` — the earlier pairs' messages and results
are built and then discarded. -/
theorem C1_multi_returns_last_only {ε σ α : Type}
    (p : String × RComp ε σ α) (rest : List (String × RComp ε σ α))
    (w : World σ) :
    (∀ e : ε, format_time_specSeq (p :: rest) w = Except.error e →
        format_time_multi p rest w = Except.error e) ∧
    (∀ (lst : List (String × α)) (w1 : World σ) (m : String) (r : α),
        format_time_specSeq (p :: rest) w = Except.ok (lst, w1) →
        lst.getLast? = some (m, r) →
        format_time_multi p rest w = Except.ok ((m, r), w1)) := by
  induction rest generalizing p w with
  | nil =>
      constructor
      · intro e h
        cases ht : time_bang p.2 w with
        | error e0 =>
            rw [format_time_specSeq_cons_error p [] w e0 ht] at h
            simp only [Except.error.injEq] at h
            rw [format_time_multi_error p [] w e0 ht, h]
        | ok x =>
            obtain ⟨⟨d, res⟩, wa⟩ := x
            rw [format_time_specSeq_cons_okOk p [] w d res wa [] wa ht rfl] at h
            exact absurd h (by simp)
      · intro lst w1 m r h hlast
        cases ht : time_bang p.2 w with
        | error e0 =>
            rw [format_time_specSeq_cons_error p [] w e0 ht] at h
            exact absurd h (by simp)
        | ok x =>
            obtain ⟨⟨d, res⟩, wa⟩ := x
            rw [format_time_specSeq_cons_okOk p [] w d res wa [] wa ht rfl] at h
            simp only [Except.ok.injEq, Prod.mk.injEq] at h
            obtain ⟨hlist, hw⟩ := h
            rw [← hlist] at hlast
            simp only [List.getLast?_singleton, Option.some.injEq, Prod.mk.injEq] at hlast
            obtain ⟨hm, hr⟩ := hlast
            rw [format_time_multi_nil_ok p w d res wa ht, hm, hr, hw]
  | cons q qs ih =>
      constructor
      · intro e h
        cases ht : time_bang p.2 w with
        | error e0 =>
            rw [format_time_specSeq_cons_error p (q :: qs) w e0 ht] at h
            simp only [Except.error.injEq] at h
            rw [format_time_multi_error p (q :: qs) w e0 ht, h]
        | ok x =>
            obtain ⟨⟨d, res⟩, wa⟩ := x
            cases hs : format_time_specSeq (q :: qs) wa with
            | error e1 =>
                rw [format_time_specSeq_cons_okError p (q :: qs) w d res wa e1 ht hs] at h
                simp only [Except.error.injEq] at h
                rw [format_time_multi_cons_ok p q qs w d res wa ht]
                exact (ih q wa).1 e (by rw [hs, h])
            | ok y =>
                obtain ⟨lst2, w2⟩ := y
                rw [format_time_specSeq_cons_okOk p (q :: qs) w d res wa lst2 w2 ht hs] at h
                exact absurd h (by simp)
      · intro lst w1 m r h hlast
        cases ht : time_bang p.2 w with
        | error e0 =>
            rw [format_time_specSeq_cons_error p (q :: qs) w e0 ht] at h
            exact absurd h (by simp)
        | ok x =>
            obtain ⟨⟨d, res⟩, wa⟩ := x
            cases hs : format_time_specSeq (q :: qs) wa with
            | error e1 =>
                rw [format_time_specSeq_cons_okError p (q :: qs) w d res wa e1 ht hs] at h
                exact absurd h (by simp)
            | ok y =>
                obtain ⟨lst2, w2⟩ := y
                rw [format_time_specSeq_cons_okOk p (q :: qs) w d res wa lst2 w2 ht hs] at h
                simp only [Except.ok.injEq, Prod.mk.injEq] at h
                obtain ⟨hlist, hw⟩ := h
                have hne : lst2 ≠ [] := format_time_specSeq_ne_nil q qs wa lst2 w2 hs
                rw [← hlist] at hlast
                have hlast2 : lst2.getLast? = some (m, r) := by
                  cases lst2 with
                  | nil => exact absurd rfl hne
                  | cons a as =>
                      rw [List.getLast?_cons_cons] at hlast
                      exact hlast
                have hrec := (ih q wa).2 lst2 w2 m r hs hlast2
                rw [format_time_multi_cons_ok p q qs w d res wa ht, hrec, hw]

/-- C1 witness: on the two pairs `("A", return 1)` and `("B", return 2)`
the multi-pair arm returns exactly the last pair's message and result. -/
theorem C1_witness :
    format_time_multi ("A", (pureComp 1 : RComp Unit Unit Nat)) [("B", pureComp 2)]
      (initWorld ()) =
      Except.ok ((labeledMsg "B" (satSub 0 0), 2), initWorld ()) :=
  (C1_multi_returns_last_only ("A", pureComp 1) [("B", pureComp 2)] (initWorld ())).2
    [(labeledMsg "A" (satSub 0 0), 1), (labeledMsg "B" (satSub 0 0), 2)]
    (initWorld ()) (labeledMsg "B" (satSub 0 0)) 2 rfl rfl

/-- C1 counterexample: with the two pairs `("A", return 1)` and
`("B", return 2)`, the claim requires the ordered sequence of both
`(message, result)` pairs (as `format_time_specSeq` produces), but the
actual expansion returns the single pair built from label `"B"`, which is
not the pair built from label `"A"`: pair `"A"`'s message and result are
absent from the returned value. -/
theorem C1_counterexample :
    format_time_multi ("A", (pureComp 1 : RComp Unit Unit Nat)) [("B", pureComp 2)]
      (initWorld ()) =
      Except.ok ((labeledMsg "B" (satSub 0 0), 2), initWorld ()) ∧
    format_time_specSeq [("A", (pureComp 1 : RComp Unit Unit Nat)), ("B", pureComp 2)]
      (initWorld ()) =
      Except.ok ([(labeledMsg "A" (satSub 0 0), 1), (labeledMsg "B" (satSub 0 0), 2)],
        initWorld ()) ∧
    (labeledMsg "B" (satSub 0 0), (2 : Nat)) ≠ (labeledMsg "A" (satSub 0 0), 1) :=
  ⟨rfl, rfl, by decide⟩

/-- C2 (amended): each call to `log_time!` writes exactly ONE
newline-terminated line to stderr — the single message `format_time!`
produces on the same tokens (for N ≥ 2 pairs, the last pair's message) —
appended after all computations have been evaluated.  Only the bare and
single-pair forms (one computation per call) write one line per
computation; a call with N ≥ 2 labeled computations writes 1 line, not N. -/
theorem C2_one_line_per_call {ε σ α : Type} (w : World σ) :
    (∀ (c : RComp ε σ α) (m : String) (r : α) (w1 : World σ),
        format_time_plain c w = Except.ok ((m, r), w1) →
        log_time_plain c w =
          Except.ok (r, { w1 with stderrLines := w1.stderrLines ++ [m] })) ∧
    (∀ (msg : String) (c : RComp ε σ α) (m : String) (r : α) (w1 : World σ),
        format_time_single msg c w = Except.ok ((m, r), w1) →
        log_time_single msg c w =
          Except.ok (r, { w1 with stderrLines := w1.stderrLines ++ [m] })) ∧
    (∀ (p : String × RComp ε σ α) (rest : List (String × RComp ε σ α))
        (m : String) (r : α) (w1 : World σ),
        format_time_multi p rest w = Except.ok ((m, r), w1) →
        log_time_multi p rest w =
          Except.ok (r, { w1 with stderrLines := w1.stderrLines ++ [m] })) := by
  refine ⟨?_, ?_, ?_⟩
  · intro c m r w1 h
    simp [log_time_plain, h, eprintlnLine]
  · intro msg c m r w1 h
    simp [log_time_single, h, eprintlnLine]
  · intro p rest m r w1 h
    simp [log_time_multi, h, eprintlnLine]

/-- C2 witness: a two-pair `log_time!` call appends the single line
`format_time!` would have produced (the last pair's message). -/
theorem C2_witness :
    log_time_multi ("A", (pureComp 1 : RComp Unit Unit Nat)) [("B", pureComp 2)]
      (initWorld ()) =
      Except.ok (2, { initWorld () with stderrLines :=
        (initWorld () : World Unit).stderrLines ++ [labeledMsg "B" (satSub 0 0)] }) :=
  (C2_one_line_per_call (initWorld ())).2.2 ("A", pureComp 1) [("B", pureComp 2)]
    (labeledMsg "B" (satSub 0 0)) 2 (initWorld ()) rfl

/-- C2 counterexample: a `log_time!` call with N = 2 labeled computations
writes 1 line to stderr, not 2. -/
theorem C2_counterexample :
    (log_time_multi ("A", (pureComp 1 : RComp Unit Unit Nat)) [("B", pureComp 2)]
        (initWorld ())).map (fun x => x.2.stderrLines.length) = Except.ok 1 ∧
    (1 : Nat) ≠ 2 :=
  ⟨rfl, by decide⟩
